import Mathlib

/-!
Shallow embedding of the loan-platform backend (backend/app/main.py,
models.py, schemas.py) and proofs about its ticket assignment, application
workflow, analytics, auth and EMI endpoints.

Database rows are modelled as Lean structures, the database as lists of
rows, and each endpoint as a pure function from its inputs and the
database to an Except value: an error result models a raised
HTTPException, in which case no database mutation is committed (every
handler raises before mutating, and uncommitted session changes are
discarded), so the pre-state is unchanged by construction.
-/

namespace LoanPlatform

/-- An HTTP error raised by a handler, as in fastapi.HTTPException. -/
structure HTTPException where
  status_code : Nat
  detail : String
  deriving DecidableEq, Repr

/-- Row of the users table (models.User).  created_at is irrelevant to
the verified endpoints and omitted. -/
structure User where
  id : Nat
  name : String
  email : String
  password_hash : String
  role : String
  deriving DecidableEq, Repr

/-- Row of the loan_applications table (models.LoanApplication).  The
JSON-encoded list columns documents and additional_documents are
modelled as lists of strings (the json.dumps/json.loads round trip);
requires_additional_docs is the stored "true"/"false" string, as in the
schema.  created_at is an opaque stamp. -/
structure LoanApplication where
  id : Nat
  client_id : Nat
  loan_type : String
  amount : ℚ
  purpose : String
  documents : List String
  additional_documents : List String
  status : String
  admin_note : String
  requires_additional_docs : String
  required_docs_note : String
  created_at : Nat
  deriving DecidableEq, Repr

/-- Row of the tickets table (models.Ticket).  The autoincrement id and
created_at stamp play no role in the verified claims and are omitted. -/
structure Ticket where
  owner_id : Nat
  assigned_admin_id : Option Nat
  subject : String
  message : String
  priority : String
  status : String
  created_by : String
  deriving DecidableEq, Repr

/-- The database snapshot a request operates on. -/
structure DB where
  users : List User
  applications : List LoanApplication
  tickets : List Ticket
  deriving DecidableEq, Repr

/-- schemas.RegisterRequest. -/
structure RegisterRequest where
  name : String
  email : String
  password : String
  deriving DecidableEq, Repr

/-- schemas.LoginRequest. -/
structure LoginRequest where
  email : String
  password : String
  deriving DecidableEq, Repr

/-- schemas.UpdateStatusRequest. -/
structure UpdateStatusRequest where
  status : String
  admin_note : String
  requires_additional_docs : Bool
  required_docs_note : String
  deriving DecidableEq, Repr

/-- schemas.EMIRequest; the schema constrains principal, annual_rate and
months to be strictly positive.  Python floats are modelled as rationals. -/
structure EMIRequest where
  principal : ℚ
  annual_rate : ℚ
  months : Nat
  deriving DecidableEq, Repr

/-- schemas.EMIResponse. -/
structure EMIResponse where
  emi : ℚ
  total_payment : ℚ
  total_interest : ℚ
  deriving DecidableEq, Repr

/-- schemas.PublicStatsResponse. -/
structure PublicStatsResponse where
  total_applications : Nat
  approved_applications : Nat
  rejected_applications : Nat
  pending_applications : Int
  approval_rate : ℚ
  total_disbursed_amount : ℚ
  deriving DecidableEq, Repr

/-- Characters removed by Python str.strip with no argument (ASCII
whitespace: space, tab, newline, carriage return, vertical tab, form
feed). -/
def isPySpace (c : Char) : Bool :=
  c == ' ' || c == '\t' || c == '\n' || c == '\r' || c.toNat == 11 || c.toNat == 12

/-- Python str.strip(): drop whitespace from both ends. -/
def pyStrip (s : String) : String :=
  ⟨((s.data.dropWhile isPySpace).reverse.dropWhile isPySpace).reverse⟩

/-- Python str.lower() on the ASCII range: lowercase every character. -/
def pyLower (s : String) : String :=
  ⟨s.data.map Char.toLower⟩

/-- The filename sanitisation in main.py: replace every "/" and every
backslash by an underscore (single-character str.replace). -/
def pyReplaceSlashes (s : String) : String :=
  ⟨s.data.map (fun c => if c == '/' || c == '\\' then '_' else c)⟩

/-- Modelled from the spec: the auth module is not among the analysed
sources; the spec treats hashing as an opaque capability
"hash(password) -> hash".  Modelled as an injective function. -/
def hash_password (password : String) : String :=
  password

/-- Modelled from the spec: "verify(password, hash) -> bool", true
exactly when the hash was produced from the given password. -/
def verify_password (password : String) (hashed : String) : Bool :=
  hash_password password == hashed

/-- Modelled from the spec: "issue_token(subject) -> token", an opaque
token issuer for the given subject. -/
def create_access_token (subject : String) : String :=
  subject

/-- main.require_admin: 403 unless the caller's role is admin or
super_admin. -/
def require_admin (user : User) : Except HTTPException User :=
  if !(user.role == "admin" || user.role == "super_admin") then
    .error ⟨403, "Admin access required"⟩
  else
    .ok user

/-- The admin enumeration inside get_least_loaded_admin_id: users whose
role is admin or super_admin, in table order. -/
def eligibleAdmins (db : DB) : List User :=
  db.users.filter (fun u => u.role == "admin" || u.role == "super_admin")

/-- The per-admin ticket count inside get_least_loaded_admin_id: tickets
assigned to the admin whose status is open or in_progress. -/
def adminLoad (db : DB) (adminId : Nat) : Nat :=
  (db.tickets.filter (fun t =>
    t.assigned_admin_id == some adminId &&
      (t.status == "open" || t.status == "in_progress"))).length

/-- main.get_least_loaded_admin_id: none when there is no admin;
otherwise the id minimising the open/in_progress ticket count, the
Python min over the insertion-ordered count dict keeping the first
minimiser (the fold keeps the current best on ties). -/
def get_least_loaded_admin_id (db : DB) : Option Nat :=
  match eligibleAdmins db with
  | [] => none
  | a :: rest =>
    some ((rest.foldl
      (fun best x => if adminLoad db x.id < adminLoad db best.id then x else best) a).id)

/-- main.create_system_ticket: append one open, medium-priority ticket
created by "system", assigned by get_least_loaded_admin_id on the
current snapshot. -/
def create_system_ticket (db : DB) (owner_id : Nat) (subject message : String) : DB :=
  let assigned_admin_id := get_least_loaded_admin_id db
  { db with
    tickets := db.tickets ++
      [{ owner_id := owner_id
         assigned_admin_id := assigned_admin_id
         subject := subject
         message := message
         priority := "medium"
         status := "open"
         created_by := "system" }] }

/-- main.update_application_status (PATCH /api/applications/id): admin
gate, then status validation, then lookup; on success rewrite the row's
status, admin_note (with the deciding admin's name appended, stripped),
requires_additional_docs and required_docs_note, and create one system
ticket for the application owner summarising the new status and the
required-docs note. -/
def update_application_status (application_id : Nat) (payload : UpdateStatusRequest)
    (caller : User) (db : DB) : Except HTTPException DB :=
  match require_admin caller with
  | .error e => .error e
  | .ok admin =>
    if !(payload.status == "Approved" || payload.status == "Rejected" ||
        payload.status == "Pending") then
      .error ⟨400, "Invalid status"⟩
    else
      match db.applications.find? (fun r => r.id == application_id) with
      | none => .error ⟨404, "Application not found"⟩
      | some row =>
        let row2 := { row with
          status := payload.status
          admin_note := pyStrip (payload.admin_note ++ " (updated by " ++ admin.name ++ ")")
          requires_additional_docs := if payload.requires_additional_docs then "true" else "false"
          required_docs_note := payload.required_docs_note }
        let db2 : DB := { db with
          applications := db.applications.map
            (fun r => if r.id == application_id then row2 else r) }
        .ok (create_system_ticket db2 row.client_id
          ("Application " ++ payload.status)
          ("Your " ++ row.loan_type ++ " application is marked as " ++ payload.status ++
            ". " ++ payload.required_docs_note))

/-- main.upload_additional_documents (POST additional-documents): lookup,
owner gate, then append the sanitised per-user-prefixed filename to
additional_documents, clear the requires-additional-docs flag and note,
and create one system ticket. -/
def upload_additional_documents (application_id : Nat) (document_filename : Option String)
    (caller : User) (db : DB) : Except HTTPException DB :=
  match db.applications.find? (fun r => r.id == application_id) with
  | none => .error ⟨404, "Application not found"⟩
  | some row =>
    if row.client_id != caller.id then
      .error ⟨403, "Only owner can upload additional documents"⟩
    else
      let clean_name := pyReplaceSlashes (document_filename.getD "additional_file")
      let filename := toString caller.id ++ "_extra_" ++ clean_name
      let row2 := { row with
        additional_documents := row.additional_documents ++ [filename]
        requires_additional_docs := "false"
        required_docs_note := "" }
      let db2 : DB := { db with
        applications := db.applications.map
          (fun r => if r.id == application_id then row2 else r) }
      .ok (create_system_ticket db2 caller.id "Additional Document Uploaded"
        ("Client uploaded additional document for application #" ++ toString row.id ++ "."))

/-- main.register: reject when a user already has the lowercased email,
else store a new client with the lowercased email and hashed password.
The autoincremented primary key is passed in as new_id. -/
def register (payload : RegisterRequest) (new_id : Nat) (db : DB) :
    Except HTTPException (DB × User) :=
  match db.users.find? (fun u => u.email == pyLower payload.email) with
  | some _ => .error ⟨400, "Email already exists"⟩
  | none =>
    let user : User :=
      { id := new_id
        name := payload.name
        email := pyLower payload.email
        password_hash := hash_password payload.password
        role := "client" }
    .ok ({ db with users := db.users ++ [user] }, user)

/-- main.login: look up the user by lowercased email and verify the
password; 401 on either failure, else a token for the user's id. -/
def login (payload : LoginRequest) (db : DB) : Except HTTPException String :=
  match db.users.find? (fun u => u.email == pyLower payload.email) with
  | none => .error ⟨401, "Invalid credentials"⟩
  | some user =>
    if verify_password payload.password user.password_hash then
      .ok (create_access_token (toString user.id))
    else
      .error ⟨401, "Invalid credentials"⟩

/-- main.contact_submission: 400 when the stripped message has fewer
than 10 characters, else an acknowledgement. -/
def contact_submission (name email message : String) :
    Except HTTPException (String × String) :=
  if (pyStrip message).length < 10 then
    .error ⟨400, "Message too short"⟩
  else
    .ok ("received", "Thank you " ++ name ++ ", our team will reach out at " ++ email ++ ".")

/-- Python round(x, 2) on the model rationals: round to two decimal
places. -/
def round2 (x : ℚ) : ℚ :=
  (round (x * 100) : ℤ) / 100

/-- main.public_stats (GET /api/public/stats). -/
def public_stats (db : DB) : PublicStatsResponse :=
  let total := db.applications.length
  let approved := (db.applications.filter (fun a => a.status == "Approved")).length
  let rejected := (db.applications.filter (fun a => a.status == "Rejected")).length
  let pending : Int := max ((total : Int) - (approved : Int) - (rejected : Int)) 0
  let disbursed : ℚ :=
    ((db.applications.filter (fun a => a.status == "Approved")).map (fun a => a.amount)).sum
  let rate : ℚ := if total == 0 then 0 else round2 (((approved : ℚ) / (total : ℚ)) * 100)
  { total_applications := total
    approved_applications := approved
    rejected_applications := rejected
    pending_applications := pending
    approval_rate := rate
    total_disbursed_amount := disbursed }

/-- The monthly rate r = annual_rate / 12 / 100 of main.emi. -/
def emiMonthlyRate (payload : EMIRequest) : ℚ :=
  payload.annual_rate / 12 / 100

/-- The factor (1 + r) ^ months of main.emi. -/
def emiFactor (payload : EMIRequest) : ℚ :=
  (1 + emiMonthlyRate payload) ^ payload.months

/-- main.emi (POST /api/emi/calculate). -/
def emi (payload : EMIRequest) : EMIResponse :=
  let monthly := emiMonthlyRate payload
  let factor := emiFactor payload
  let emi_val := payload.principal * monthly * factor / (factor - 1)
  let total := emi_val * (payload.months : ℚ)
  { emi := emi_val
    total_payment := total
    total_interest := total - payload.principal }

/-- The HTTP status of an erroring handler result, none on success. -/
def exceptStatus {α : Type} (r : Except HTTPException α) : Option Nat :=
  match r with
  | .error e => some e.status_code
  | .ok _ => none

/-- The needle occurs as a contiguous substring of the haystack. -/
def mentions (needle hay : String) : Prop :=
  List.IsInfix needle.data hay.data

/-- The fold main.get_least_loaded_admin_id performs (Python min with a
key function, keeping the first minimiser on ties). -/
def foldMin {α : Type} (f : α → Nat) (a : α) (l : List α) : α :=
  l.foldl (fun best x => if f x < f best then x else best) a

/-- Concrete database for the C1 witness: admin A (id 1) carries two
open tickets, admin B (id 2) carries none. -/
def c1db : DB :=
  { users :=
      [{ id := 1, name := "A", email := "a@x.com", password_hash := "h", role := "admin" },
       { id := 2, name := "B", email := "b@x.com", password_hash := "h", role := "admin" }]
    applications := []
    tickets :=
      [{ owner_id := 7, assigned_admin_id := some 1, subject := "t1", message := "m1",
         priority := "medium", status := "open", created_by := "client" },
       { owner_id := 7, assigned_admin_id := some 1, subject := "t2", message := "m2",
         priority := "medium", status := "open", created_by := "client" }] }

/-- Concrete admin caller for the C2 witness. -/
def c2caller : User :=
  { id := 1, name := "Root", email := "root@x.com", password_hash := "h", role := "admin" }

/-- Concrete database for the C2 witness: one admin, one pending
application owned by client 5, no tickets. -/
def c2db : DB :=
  { users := [c2caller]
    applications :=
      [{ id := 10, client_id := 5, loan_type := "Home Loan", amount := 1000,
         purpose := "p", documents := ["d1", "d2", "d3"], additional_documents := [],
         status := "Pending", admin_note := "", requires_additional_docs := "false",
         required_docs_note := "", created_at := 0 }]
    tickets := [] }

/-- Concrete status-update payload for the C2 witness. -/
def c2payload : UpdateStatusRequest :=
  { status := "Approved", admin_note := "ok", requires_additional_docs := false,
    required_docs_note := "note1" }

/-- The database produced by the C2 witness transition. -/
def c2result : DB :=
  ((update_application_status 10 c2payload c2caller c2db).toOption).getD c2db

/-- The concrete EMI request of the spec's numeric example:
principal 100000, annual rate 12 percent, 12 months. -/
def c4req : EMIRequest :=
  { principal := 100000, annual_rate := 12, months := 12 }

/-- Concrete owning client for the C5 witness. -/
def c5caller : User :=
  { id := 5, name := "Carol", email := "carol@x.com", password_hash := "h", role := "client" }

/-- Concrete application for the C5 and C6 witnesses: owned by client 5,
with its three mandatory documents. -/
def c5app : LoanApplication :=
  { id := 10, client_id := 5, loan_type := "Home Loan", amount := 1000,
    purpose := "p", documents := ["d1", "d2", "d3"], additional_documents := [],
    status := "Pending", admin_note := "", requires_additional_docs := "true",
    required_docs_note := "please send payslip", created_at := 0 }

/-- Concrete database for the C5 and C6 witnesses. -/
def c5db : DB :=
  { users := [], applications := [c5app], tickets := [] }

/-- Concrete non-owner caller for the C6 witness. -/
def c6caller : User :=
  { id := 99, name := "Eve", email := "eve@x.com", password_hash := "h", role := "client" }

/-- First registration payload for the C8 witness. -/
def c8p1 : RegisterRequest :=
  { name := "Alice", email := "Alice@Example.com", password := "secret1" }

/-- Second registration payload for the C8 witness: same email up to
letter case. -/
def c8p2 : RegisterRequest :=
  { name := "Mallory", email := "ALICE@EXAMPLE.COM", password := "secret2" }

/-- Empty database for the C8 witness. -/
def c8db : DB :=
  { users := [], applications := [], tickets := [] }

/-- A binary64 floating-point value of the source language, identified
with its exact rational value: an integer mantissa of magnitude below
2 ^ 53 times a power of two.  The exponent is left unbounded (no
overflow or subnormal cutoff), which only enlarges the set of values the
rounded program may produce, so safety conclusions drawn for every
rounding remain valid for the real, sparser format. -/
def IsDouble (x : ℚ) : Prop :=
  ∃ m e : ℤ, |m| < 2 ^ 53 ∧ x = (m : ℚ) * (2 : ℚ) ^ e

/-- Round to nearest: y is a binary64 value minimising the distance to
x, the semantics of each arithmetic operation on Python floats.  On an
exact tie this admits either neighbour (IEEE 754 picks the even one);
every rounding used below is tie-free, so the conclusions do not depend
on the tie-breaking rule. -/
def RoundsTo (x y : ℚ) : Prop :=
  IsDouble y ∧ ∀ z : ℚ, IsDouble z → |x - y| ≤ |x - z|

/-- The binary64 evaluation of the monthly rate in main.emi
(monthly = payload.annual_rate / 12 / 100): two successive correctly
rounded float divisions of the double annual_rate. -/
def emiFloatMonthly (annual_rate m1 monthly : ℚ) : Prop :=
  RoundsTo (annual_rate / 12) m1 ∧ RoundsTo (m1 / 100) monthly

/-- The fold keeping the first strict improver computes the first
minimiser of f over the start element followed by the list: the result
splits the enumeration into a strictly-greater prefix and a
greater-or-equal suffix. -/
theorem foldMin_spec {α : Type} (f : α → Nat) :
    ∀ (l : List α) (a : α), ∃ l1 l2,
      a :: l = l1 ++ foldMin f a l :: l2 ∧
      (∀ b ∈ l1, f (foldMin f a l) < f b) ∧
      (∀ b ∈ l2, f (foldMin f a l) ≤ f b) := by
  intro l
  induction l with
  | nil =>
    intro a
    exact ⟨[], [], rfl, by simp, by simp⟩
  | cons x xs ih =>
    intro a
    by_cases h : f x < f a
    · have hstep : foldMin f a (x :: xs) = foldMin f x xs := by
        simp only [foldMin, List.foldl_cons, if_pos h]
      obtain ⟨l1, l2, heq, h1, h2⟩ := ih x
      have hmx : f (foldMin f x xs) ≤ f x := by
        cases l1 with
        | nil =>
          rw [List.nil_append] at heq
          injection heq with hx _
          rw [← hx]
        | cons c l1' =>
          rw [List.cons_append] at heq
          injection heq with hx _
          exact le_of_lt (h1 x (hx ▸ List.mem_cons_self c l1'))
      refine ⟨a :: l1, l2, ?_, ?_, ?_⟩
      · rw [hstep, List.cons_append, ← heq]
      · intro b hb
        rcases List.mem_cons.mp hb with hb | hb
        · subst hb
          rw [hstep]
          exact lt_of_le_of_lt hmx h
        · rw [hstep]
          exact h1 b hb
      · intro b hb
        rw [hstep]
        exact h2 b hb
    · have hstep : foldMin f a (x :: xs) = foldMin f a xs := by
        simp only [foldMin, List.foldl_cons, if_neg h]
      obtain ⟨l1, l2, heq, h1, h2⟩ := ih a
      cases l1 with
      | nil =>
        rw [List.nil_append] at heq
        injection heq with ha hxs
        refine ⟨[], x :: l2, ?_, by simp, ?_⟩
        · rw [List.nil_append, hstep, ← ha, ← hxs]
        · intro b hb
          rcases List.mem_cons.mp hb with hb | hb
          · subst hb
            rw [hstep, ← ha]
            exact Nat.le_of_not_lt h
          · rw [hstep]
            exact h2 b hb
      | cons c l1' =>
        rw [List.cons_append] at heq
        injection heq with ha hxs
        have hma : f (foldMin f a xs) < f a :=
          lt_of_lt_of_eq (h1 c (List.mem_cons_self c l1')) (congrArg f ha).symm
        refine ⟨a :: x :: l1', l2, ?_, ?_, ?_⟩
        · rw [hstep]
          simp only [List.cons_append]
          rw [← hxs]
        · intro b hb
          rcases List.mem_cons.mp hb with hb | hb
          · subst hb
            rw [hstep]
            exact hma
          · rcases List.mem_cons.mp hb with hb2 | hb2
            · subst hb2
              rw [hstep]
              exact lt_of_lt_of_le hma (Nat.le_of_not_lt h)
            · rw [hstep]
              exact h1 b (List.mem_cons_of_mem c hb2)
        · intro b hb
          rw [hstep]
          exact h2 b hb

/-- C1: with at least one admin or super_admin user, the assignment
function returns the id of the eligible admin with the minimum count of
open/in_progress tickets assigned to them (absent tickets counting as
0), ties broken by first-encountered order in the admin enumeration
(every earlier admin has a strictly larger count); with no eligible
admin it returns none. -/
theorem get_least_loaded_admin_id_correct (db : DB) :
    (eligibleAdmins db = [] → get_least_loaded_admin_id db = none) ∧
    (eligibleAdmins db ≠ [] →
      ∃ a l1 l2,
        eligibleAdmins db = l1 ++ a :: l2 ∧
        get_least_loaded_admin_id db = some a.id ∧
        (∀ b ∈ l1, adminLoad db a.id < adminLoad db b.id) ∧
        (∀ b ∈ eligibleAdmins db, adminLoad db a.id ≤ adminLoad db b.id)) := by
  constructor
  · intro h
    simp [get_least_loaded_admin_id, h]
  · intro h
    cases heq : eligibleAdmins db with
    | nil => exact absurd heq h
    | cons a0 rest =>
      obtain ⟨l1, l2, hsplit, h1, h2⟩ :=
        foldMin_spec (fun u : User => adminLoad db u.id) rest a0
      refine ⟨foldMin (fun u : User => adminLoad db u.id) a0 rest, l1, l2, hsplit, ?_, h1, ?_⟩
      · simp [get_least_loaded_admin_id, heq, foldMin]
      · intro b hb
        rw [hsplit] at hb
        rcases List.mem_append.mp hb with hb | hb
        · exact le_of_lt (h1 b hb)
        · rcases List.mem_cons.mp hb with hb | hb
          · subst hb
            exact le_refl _
          · exact h2 b hb

/-- Witness for C1 at the concrete database c1db: the nonempty-admins
case applies, and the selection picks admin B (id 2), the admin with 0
open tickets against A's 2. -/
theorem get_least_loaded_admin_id_correct_witness :
    (∃ a l1 l2,
        eligibleAdmins c1db = l1 ++ a :: l2 ∧
        get_least_loaded_admin_id c1db = some a.id ∧
        (∀ b ∈ l1, adminLoad c1db a.id < adminLoad c1db b.id) ∧
        (∀ b ∈ eligibleAdmins c1db, adminLoad c1db a.id ≤ adminLoad c1db b.id)) ∧
    get_least_loaded_admin_id c1db = some 2 :=
  ⟨(get_least_loaded_admin_id_correct c1db).2 (by decide), by decide⟩

/-- The admin selection reads only the users and tickets tables, so
replacing the applications table leaves it unchanged. -/
theorem get_least_loaded_admin_id_set_apps (db : DB) (apps : List LoanApplication) :
    get_least_loaded_admin_id { db with applications := apps } =
      get_least_loaded_admin_id db := rfl

/-- C2: every successful application status transition appends exactly
one new ticket, owned by the application's owning client, created by
"system", assigned by the least-loaded-admin selection on the pre-state,
whose message mentions the new status and the required-docs note. -/
theorem update_application_status_creates_ticket
    (application_id : Nat) (payload : UpdateStatusRequest) (caller : User) (db db2 : DB)
    (hok : update_application_status application_id payload caller db = .ok db2) :
    ∃ app t,
      db.applications.find? (fun r => r.id == application_id) = some app ∧
      db2.tickets = db.tickets ++ [t] ∧
      t.owner_id = app.client_id ∧
      t.created_by = "system" ∧
      t.assigned_admin_id = get_least_loaded_admin_id db ∧
      t.message = "Your " ++ app.loan_type ++ " application is marked as " ++
        payload.status ++ ". " ++ payload.required_docs_note ∧
      mentions payload.status t.message ∧
      mentions payload.required_docs_note t.message := by
  unfold update_application_status at hok
  cases hra : require_admin caller with
  | error e =>
    rw [hra] at hok
    simp at hok
  | ok admin =>
    rw [hra] at hok
    by_cases hst : (payload.status == "Approved" || payload.status == "Rejected" ||
        payload.status == "Pending") = true
    · simp only [hst, Bool.not_true, Bool.false_eq_true, if_false] at hok
      cases hfind : db.applications.find? (fun r => r.id == application_id) with
      | none =>
        rw [hfind] at hok
        simp at hok
      | some row =>
        rw [hfind] at hok
        have hdb2 := Except.ok.inj hok
        subst hdb2
        refine ⟨row,
          { owner_id := row.client_id
            assigned_admin_id := get_least_loaded_admin_id db
            subject := "Application " ++ payload.status
            message := "Your " ++ row.loan_type ++ " application is marked as " ++
              payload.status ++ ". " ++ payload.required_docs_note
            priority := "medium", status := "open", created_by := "system" },
          ?_, ?_, ?_, ?_, ?_, ?_, ?_, ?_⟩
        · rfl
        · rfl
        · rfl
        · rfl
        · rfl
        · rfl
        · exact ⟨("Your " ++ row.loan_type ++ " application is marked as ").data,
            (". " ++ payload.required_docs_note).data,
            by simp [String.data_append, List.append_assoc]⟩
        · exact ⟨("Your " ++ row.loan_type ++ " application is marked as " ++
              payload.status ++ ". ").data, [],
            by simp [String.data_append, List.append_assoc]⟩
    · simp only [Bool.not_eq_true] at hst
      simp [hst] at hok

/-- Witness for C2 at a concrete approval: the transition succeeds and
the appended system ticket has the stated shape. -/
theorem update_application_status_creates_ticket_witness :
    ∃ app t,
      c2db.applications.find? (fun r => r.id == 10) = some app ∧
      c2result.tickets = c2db.tickets ++ [t] ∧
      t.owner_id = app.client_id ∧
      t.created_by = "system" ∧
      t.assigned_admin_id = get_least_loaded_admin_id c2db ∧
      t.message = "Your " ++ app.loan_type ++ " application is marked as " ++
        c2payload.status ++ ". " ++ c2payload.required_docs_note ∧
      mentions c2payload.status t.message ∧
      mentions c2payload.required_docs_note t.message :=
  update_application_status_creates_ticket 10 c2payload c2caller c2db c2result (by rfl)

/-- C3: the public stats endpoint floors pending at 0 from the
total/approved/rejected counts, returns the rounded approval percentage
(0 when there are no applications), and sums the approved amounts. -/
theorem public_stats_correct (db : DB) :
    (public_stats db).total_applications = db.applications.length ∧
    (public_stats db).approved_applications =
      (db.applications.filter (fun a => a.status == "Approved")).length ∧
    (public_stats db).rejected_applications =
      (db.applications.filter (fun a => a.status == "Rejected")).length ∧
    (public_stats db).pending_applications =
      max ((db.applications.length : Int) -
        ((db.applications.filter (fun a => a.status == "Approved")).length : Int) -
        ((db.applications.filter (fun a => a.status == "Rejected")).length : Int)) 0 ∧
    (public_stats db).approval_rate =
      (if db.applications.length = 0 then 0 else
        round2 ((((db.applications.filter (fun a => a.status == "Approved")).length : ℚ) /
          (db.applications.length : ℚ)) * 100)) ∧
    (public_stats db).total_disbursed_amount =
      ((db.applications.filter (fun a => a.status == "Approved")).map (fun a => a.amount)).sum := by
  refine ⟨rfl, rfl, rfl, rfl, ?_, rfl⟩
  by_cases h : db.applications.length = 0
  · simp [public_stats, h]
  · simp [public_stats, h]

/-- C4 counterexample: at the spec's own example request the code's
total payment is 106618.5464... and its total interest 6618.5464...,
both more than 0.01 away from the claimed 106618.56 and 6618.56 (those
figures come from multiplying the already-rounded EMI by 12, which the
code does not do). -/
theorem emi_concrete_totals_off :
    |(emi c4req).total_payment - 106618.56| > 1 / 100 ∧
    |(emi c4req).total_interest - 6618.56| > 1 / 100 := by
  have h1 : (106618.56 : ℚ) - (emi c4req).total_payment > 1 / 100 := by
    norm_num [emi, emiFactor, emiMonthlyRate, c4req]
  have h2 : (6618.56 : ℚ) - (emi c4req).total_interest > 1 / 100 := by
    norm_num [emi, emiFactor, emiMonthlyRate, c4req]
  constructor
  · calc |(emi c4req).total_payment - 106618.56|
        = |106618.56 - (emi c4req).total_payment| := abs_sub_comm _ _
      _ = 106618.56 - (emi c4req).total_payment := abs_of_pos (by linarith)
      _ > 1 / 100 := h1
  · calc |(emi c4req).total_interest - 6618.56|
        = |6618.56 - (emi c4req).total_interest| := abs_sub_comm _ _
      _ = 6618.56 - (emi c4req).total_interest := abs_of_pos (by linarith)
      _ > 1 / 100 := h2

/-- C4 (amended): for every valid EMI request the endpoint returns the
amortizing-loan formula with r the monthly rate, total payment EMI times
months and total interest their difference; at the example request the
EMI is within 0.01 of 8884.88, the total payment within 0.01 of
106618.55 and the total interest within 0.01 of 6618.55. -/
theorem emi_correct (p : EMIRequest)
    (_hp : 0 < p.principal) (_hr : 0 < p.annual_rate) (_hm : 0 < p.months) :
    (emi p).emi = p.principal * (p.annual_rate / 12 / 100) *
        (1 + p.annual_rate / 12 / 100) ^ p.months /
        ((1 + p.annual_rate / 12 / 100) ^ p.months - 1) ∧
    (emi p).total_payment = (emi p).emi * (p.months : ℚ) ∧
    (emi p).total_interest = (emi p).total_payment - p.principal ∧
    |(emi c4req).emi - 8884.88| ≤ 1 / 100 ∧
    |(emi c4req).total_payment - 106618.55| ≤ 1 / 100 ∧
    |(emi c4req).total_interest - 6618.55| ≤ 1 / 100 := by
  refine ⟨rfl, rfl, rfl, ?_, ?_, ?_⟩ <;>
  · rw [abs_le]
    constructor <;> norm_num [emi, emiFactor, emiMonthlyRate, c4req]

/-- Witness for C4 at the example request. -/
theorem emi_correct_witness :
    (emi c4req).emi = c4req.principal * (c4req.annual_rate / 12 / 100) *
        (1 + c4req.annual_rate / 12 / 100) ^ c4req.months /
        ((1 + c4req.annual_rate / 12 / 100) ^ c4req.months - 1) ∧
    (emi c4req).total_payment = (emi c4req).emi * (c4req.months : ℚ) ∧
    (emi c4req).total_interest = (emi c4req).total_payment - c4req.principal ∧
    |(emi c4req).emi - 8884.88| ≤ 1 / 100 ∧
    |(emi c4req).total_payment - 106618.55| ≤ 1 / 100 ∧
    |(emi c4req).total_interest - 6618.55| ≤ 1 / 100 :=
  emi_correct c4req (by decide) (by decide) (by decide)

/-- C5: a successful additional-document upload by the owning client
appends exactly one entry to additional_documents, leaves the original
documents (and every other application field) unchanged, stores "false"
in requires_additional_docs and clears required_docs_note, and appends
exactly one system ticket assigned by the least-loaded-admin selection. -/
theorem upload_additional_documents_effect
    (application_id : Nat) (document_filename : Option String) (caller : User)
    (db : DB) (app : LoanApplication)
    (hfind : db.applications.find? (fun r => r.id == application_id) = some app)
    (howner : app.client_id = caller.id)
    (h3 : app.documents.length = 3) :
    ∃ db2 app2,
      upload_additional_documents application_id document_filename caller db = .ok db2 ∧
      db2.applications = db.applications.map
        (fun r => if r.id == application_id then app2 else r) ∧
      app2.additional_documents = app.additional_documents ++
        [toString caller.id ++ "_extra_" ++
          pyReplaceSlashes (document_filename.getD "additional_file")] ∧
      app2.additional_documents.length = app.additional_documents.length + 1 ∧
      app2.documents = app.documents ∧
      app2.documents.length = 3 ∧
      app2.requires_additional_docs = "false" ∧
      app2.required_docs_note = "" ∧
      app2.id = app.id ∧ app2.client_id = app.client_id ∧
      app2.loan_type = app.loan_type ∧ app2.amount = app.amount ∧
      app2.purpose = app.purpose ∧ app2.status = app.status ∧
      app2.admin_note = app.admin_note ∧ app2.created_at = app.created_at ∧
      db2.users = db.users ∧
      (∃ t, db2.tickets = db.tickets ++ [t] ∧ t.created_by = "system" ∧
        t.owner_id = caller.id ∧
        t.assigned_admin_id = get_least_loaded_admin_id db) := by
  have hbne : (app.client_id != caller.id) = false := by
    simp [howner]
  unfold upload_additional_documents
  simp only [hfind, hbne, Bool.false_eq_true, if_false]
  refine ⟨_, { app with
      additional_documents := app.additional_documents ++
        [toString caller.id ++ "_extra_" ++
          pyReplaceSlashes (document_filename.getD "additional_file")]
      requires_additional_docs := "false"
      required_docs_note := "" },
    rfl, rfl, rfl, by simp, rfl, h3, rfl, rfl, rfl, rfl, rfl, rfl, rfl, rfl, rfl, rfl, rfl,
    ?_⟩
  exact ⟨{ owner_id := caller.id
           assigned_admin_id := get_least_loaded_admin_id db
           subject := "Additional Document Uploaded"
           message := "Client uploaded additional document for application #" ++
             toString app.id ++ "."
           priority := "medium", status := "open", created_by := "system" },
    rfl, rfl, rfl, rfl⟩

/-- Witness for C5: the owner of application 10 uploads one more
document named f.pdf. -/
theorem upload_additional_documents_effect_witness :
    ∃ db2 app2,
      upload_additional_documents 10 (some "f.pdf") c5caller c5db = .ok db2 ∧
      db2.applications = c5db.applications.map
        (fun r => if r.id == 10 then app2 else r) ∧
      app2.additional_documents = c5app.additional_documents ++
        [toString c5caller.id ++ "_extra_" ++
          pyReplaceSlashes ((some "f.pdf").getD "additional_file")] ∧
      app2.additional_documents.length = c5app.additional_documents.length + 1 ∧
      app2.documents = c5app.documents ∧
      app2.documents.length = 3 ∧
      app2.requires_additional_docs = "false" ∧
      app2.required_docs_note = "" ∧
      app2.id = c5app.id ∧ app2.client_id = c5app.client_id ∧
      app2.loan_type = c5app.loan_type ∧ app2.amount = c5app.amount ∧
      app2.purpose = c5app.purpose ∧ app2.status = c5app.status ∧
      app2.admin_note = c5app.admin_note ∧ app2.created_at = c5app.created_at ∧
      db2.users = c5db.users ∧
      (∃ t, db2.tickets = c5db.tickets ++ [t] ∧ t.created_by = "system" ∧
        t.owner_id = c5caller.id ∧
        t.assigned_admin_id = get_least_loaded_admin_id c5db) :=
  upload_additional_documents_effect 10 (some "f.pdf") c5caller c5db c5app
    (by decide) (by decide) (by decide)

/-- C6: an additional-document upload on an existing application by any
authenticated user other than the owning client fails with the 403
authorization error; the handler raises before touching the row or
creating a ticket, so (the embedding returning no new state on error)
the database is unchanged. -/
theorem upload_additional_documents_non_owner
    (application_id : Nat) (document_filename : Option String) (caller : User)
    (db : DB) (app : LoanApplication)
    (hfind : db.applications.find? (fun r => r.id == application_id) = some app)
    (hnot : app.client_id ≠ caller.id) :
    upload_additional_documents application_id document_filename caller db =
      .error ⟨403, "Only owner can upload additional documents"⟩ := by
  have hbne : (app.client_id != caller.id) = true := by
    simp [hnot]
  unfold upload_additional_documents
  simp only [hfind, hbne, if_true]

/-- Witness for C6: a stranger (id 99) tries to upload to client 5's
application and receives the 403 error. -/
theorem upload_additional_documents_non_owner_witness :
    upload_additional_documents 10 (some "f.pdf") c6caller c5db =
      .error ⟨403, "Only owner can upload additional documents"⟩ :=
  upload_additional_documents_non_owner 10 (some "f.pdf") c6caller c5db c5app
    (by decide) (by decide)

/-- C7: the status update yields the 403 authorization error exactly for
non-admin callers; among admin callers, the 400 validation error exactly
for a status outside the three allowed values; among admin callers with
an allowed status, the 404 not-found error exactly for an unknown
application id; and it succeeds exactly when none of the three failure
conditions holds. -/
theorem update_application_status_errors
    (application_id : Nat) (payload : UpdateStatusRequest) (caller : User) (db : DB) :
    (exceptStatus (update_application_status application_id payload caller db) = some 403 ↔
      ¬(caller.role = "admin" ∨ caller.role = "super_admin")) ∧
    (exceptStatus (update_application_status application_id payload caller db) = some 400 ↔
      ((caller.role = "admin" ∨ caller.role = "super_admin") ∧
        ¬(payload.status = "Approved" ∨ payload.status = "Rejected" ∨
          payload.status = "Pending"))) ∧
    (exceptStatus (update_application_status application_id payload caller db) = some 404 ↔
      ((caller.role = "admin" ∨ caller.role = "super_admin") ∧
        (payload.status = "Approved" ∨ payload.status = "Rejected" ∨
          payload.status = "Pending") ∧
        db.applications.find? (fun r => r.id == application_id) = none)) ∧
    ((∃ db2, update_application_status application_id payload caller db = .ok db2) ↔
      ((caller.role = "admin" ∨ caller.role = "super_admin") ∧
        (payload.status = "Approved" ∨ payload.status = "Rejected" ∨
          payload.status = "Pending") ∧
        ∃ app, db.applications.find? (fun r => r.id == application_id) = some app)) := by
  by_cases hrole : caller.role = "admin" ∨ caller.role = "super_admin"
  · have hb : (caller.role == "admin" || caller.role == "super_admin") = true := by
      rcases hrole with h | h <;> simp [h]
    by_cases hstp : payload.status = "Approved" ∨ payload.status = "Rejected" ∨
        payload.status = "Pending"
    · have hsb : (payload.status == "Approved" || payload.status == "Rejected" ||
          payload.status == "Pending") = true := by
        rcases hstp with h | h | h <;> simp [h]
      cases hfind : db.applications.find? (fun r => r.id == application_id) with
      | none =>
        refine ⟨?_, ?_, ?_, ?_⟩ <;>
          simp [update_application_status, require_admin, hb, hsb, hfind,
            exceptStatus, hrole, hstp]
      | some row =>
        refine ⟨?_, ?_, ?_, ?_⟩ <;>
          simp [update_application_status, require_admin, hb, hsb, hfind,
            exceptStatus, hrole, hstp]
    · have hsb : (payload.status == "Approved" || payload.status == "Rejected" ||
          payload.status == "Pending") = false := by
        rw [not_or, not_or] at hstp
        simp [hstp.1, hstp.2.1, hstp.2.2]
      refine ⟨?_, ?_, ?_, ?_⟩ <;>
        simp [update_application_status, require_admin, hb, hsb,
          exceptStatus, hrole, hstp]
  · have hb : (caller.role == "admin" || caller.role == "super_admin") = false := by
      rw [not_or] at hrole
      simp [hrole.1, hrole.2]
    refine ⟨?_, ?_, ?_, ?_⟩ <;>
      simp [update_application_status, require_admin, hb, exceptStatus, hrole]

/-- C8: with a fresh email, the first registration succeeds; a second
registration whose email differs only in letter case is rejected with
the duplicate-email conflict; and login with any casing of the email and
the correct password succeeds with a token for the new user. -/
theorem register_login_case_insensitive
    (db : DB) (p1 p2 : RegisterRequest) (id1 id2 : Nat)
    (hcase : pyLower p2.email = pyLower p1.email)
    (hfresh : ∀ u ∈ db.users, u.email ≠ pyLower p1.email) :
    ∃ db2 u1,
      register p1 id1 db = .ok (db2, u1) ∧
      register p2 id2 db2 = .error ⟨400, "Email already exists"⟩ ∧
      ∀ e : String, pyLower e = pyLower p1.email →
        login { email := e, password := p1.password } db2 =
          .ok (create_access_token (toString id1)) := by
  have hnone : db.users.find? (fun u => u.email == pyLower p1.email) = none := by
    rw [List.find?_eq_none]
    intro u hu
    simp [hfresh u hu]
  have h2 : (db.users ++
      [({ id := id1, name := p1.name, email := pyLower p1.email,
          password_hash := hash_password p1.password, role := "client" } : User)]).find?
        (fun u => u.email == pyLower p1.email) =
      some { id := id1, name := p1.name, email := pyLower p1.email,
             password_hash := hash_password p1.password, role := "client" } := by
    rw [List.find?_append, hnone]
    simp [List.find?]
  refine ⟨{ db with users := db.users ++
      [{ id := id1, name := p1.name, email := pyLower p1.email,
         password_hash := hash_password p1.password, role := "client" }] },
    { id := id1, name := p1.name, email := pyLower p1.email,
      password_hash := hash_password p1.password, role := "client" }, ?_, ?_, ?_⟩
  · unfold register
    rw [hnone]
  · unfold register
    rw [hcase]
    simp only [h2]
  · intro e he
    unfold login
    rw [he]
    simp only [h2]
    simp [verify_password, hash_password]

/-- Witness for C8: registering Alice at Alice@Example.com succeeds,
registering again at ALICE@EXAMPLE.COM conflicts, and Alice can log in
as aLiCe@eXaMpLe.CoM with her password. -/
theorem register_login_case_insensitive_witness :
    (∃ db2 u1,
      register c8p1 1 c8db = .ok (db2, u1) ∧
      register c8p2 2 db2 = .error ⟨400, "Email already exists"⟩ ∧
      ∀ e : String, pyLower e = pyLower c8p1.email →
        login { email := e, password := c8p1.password } db2 =
          .ok (create_access_token (toString 1))) ∧
    pyLower "aLiCe@eXaMpLe.CoM" = pyLower c8p1.email :=
  ⟨register_login_case_insensitive c8db c8p1 c8p2 1 2 (by decide) (by decide),
    by decide⟩

/-- C9 counterexample: a message of ten spaces has length 10 yet the
endpoint rejects it, because the code strips whitespace before measuring:
the claim that any message of length at least 10 is accepted is false. -/
theorem contact_length10_rejected :
    ("          " : String).length = 10 ∧
    contact_submission "Bob" "bob@example.com" "          " =
      .error ⟨400, "Message too short"⟩ :=
  ⟨by decide, rfl⟩

/-- C9 (amended): a contact submission fails with the 400 validation
error precisely when the message stripped of leading and trailing
whitespace is shorter than 10 characters, and is accepted precisely when
the stripped message has length at least 10. -/
theorem contact_submission_strip_iff (name email message : String) :
    (exceptStatus (contact_submission name email message) = some 400 ↔
      (pyStrip message).length < 10) ∧
    ((∃ v, contact_submission name email message = .ok v) ↔
      10 ≤ (pyStrip message).length) := by
  by_cases h : (pyStrip message).length < 10
  · simp [contact_submission, exceptStatus, h]
  · simp [contact_submission, exceptStatus, h]
    omega

/-- Powers of two are positive in the rationals. -/
theorem two_zpow_pos (e : ℤ) : (0:ℚ) < (2:ℚ) ^ e :=
  zpow_pos (by norm_num) e

/-- One binade step: 2 ^ e is twice 2 ^ (e - 1). -/
theorem two_zpow_succ (e : ℤ) : (2:ℚ) ^ e = (2:ℚ) ^ (e - 1) * 2 := by
  rw [← zpow_add_one₀ (two_ne_zero : (2:ℚ) ≠ 0) (e - 1)]
  congr 1
  omega

/-- Two distinct doubles whose exponents are both at least e differ by
at least 2 ^ e: both lie on the grid of integer multiples of 2 ^ e. -/
theorem double_grid_gap (m n e f : ℤ) (hfe : e ≤ f)
    (hne : (n : ℚ) * (2:ℚ) ^ f ≠ (m : ℚ) * (2:ℚ) ^ e) :
    (2:ℚ) ^ e ≤ |(n : ℚ) * (2:ℚ) ^ f - (m : ℚ) * (2:ℚ) ^ e| := by
  have hzk : (n : ℚ) * (2:ℚ) ^ f = ((n * 2 ^ (f - e).toNat : ℤ) : ℚ) * (2:ℚ) ^ e := by
    have hf : (2:ℚ) ^ f = (2:ℚ) ^ ((f - e).toNat : ℤ) * (2:ℚ) ^ e := by
      rw [← zpow_add₀ (two_ne_zero : (2:ℚ) ≠ 0)]
      congr 1
      omega
    rw [hf, zpow_natCast]
    push_cast
    ring
  have hk : n * 2 ^ (f - e).toNat ≠ m := by
    intro h
    apply hne
    rw [hzk, h]
  have h1 : (1:ℚ) ≤ |((n * 2 ^ (f - e).toNat : ℤ) : ℚ) - (m : ℚ)| := by
    have h2 : (1:ℤ) ≤ |n * 2 ^ (f - e).toNat - m| := Int.one_le_abs (sub_ne_zero.mpr hk)
    exact_mod_cast h2
  rw [hzk, ← sub_mul, abs_mul, abs_of_pos (two_zpow_pos e)]
  calc (2:ℚ) ^ e = 1 * (2:ℚ) ^ e := (one_mul _).symm
    _ ≤ |((n * 2 ^ (f - e).toNat : ℤ) : ℚ) - (m : ℚ)| * (2:ℚ) ^ e :=
        mul_le_mul_of_nonneg_right h1 (le_of_lt (two_zpow_pos e))

/-- A double with exponent below e - 1 is at most 2 ^ (e + 52) minus
half an ulp, hence at least 2 ^ (e - 1) below any point of the binade
starting at 2 ^ (e + 52). -/
theorem double_below_binade (n e f : ℤ) (hn : |n| < 2 ^ 53) (hfe : f < e) (x : ℚ)
    (hx : (2:ℚ) ^ (e + 52) ≤ x) :
    (2:ℚ) ^ (e - 1) ≤ x - (n : ℚ) * (2:ℚ) ^ f := by
  have hn2 : (n : ℚ) ≤ (2:ℚ) ^ 53 - 1 := by
    have : n ≤ 2 ^ 53 - 1 := by
      rw [abs_lt] at hn
      omega
    exact_mod_cast this
  have hf2 : (2:ℚ) ^ f ≤ (2:ℚ) ^ (e - 1) :=
    zpow_le_zpow_right₀ (by norm_num) (by omega)
  have hzb : (n : ℚ) * (2:ℚ) ^ f ≤ ((2:ℚ) ^ 53 - 1) * (2:ℚ) ^ (e - 1) := by
    calc (n : ℚ) * (2:ℚ) ^ f ≤ ((2:ℚ) ^ 53 - 1) * (2:ℚ) ^ f :=
          mul_le_mul_of_nonneg_right hn2 (le_of_lt (two_zpow_pos f))
      _ ≤ ((2:ℚ) ^ 53 - 1) * (2:ℚ) ^ (e - 1) :=
          mul_le_mul_of_nonneg_left hf2 (by norm_num)
  have hsum : ((2:ℚ) ^ 53 - 1) * (2:ℚ) ^ (e - 1) = (2:ℚ) ^ (e + 52) - (2:ℚ) ^ (e - 1) := by
    have h53 : (2:ℚ) ^ (e + 52) = (2:ℚ) ^ 53 * (2:ℚ) ^ (e - 1) := by
      rw [← zpow_natCast (2:ℚ) 53, ← zpow_add₀ (two_ne_zero : (2:ℚ) ≠ 0)]
      congr 1
      omega
    rw [h53]
    ring
  rw [hsum] at hzb
  linarith

/-- Uniqueness of near-correct rounding: a double within the claimed
distance of x, when x sits in the binade of 2 ^ (e + 52) within strictly
half an ulp of the grid point m * 2 ^ e, must be that grid point. -/
theorem double_unique_near (m e : ℤ) (x z : ℚ)
    (hx : (2:ℚ) ^ (e + 52) ≤ x)
    (hclose : |x - (m : ℚ) * (2:ℚ) ^ e| < (2:ℚ) ^ (e - 1))
    (hz : IsDouble z)
    (hnear : |x - z| ≤ |x - (m : ℚ) * (2:ℚ) ^ e|) :
    z = (m : ℚ) * (2:ℚ) ^ e := by
  obtain ⟨n, f, hn, rfl⟩ := hz
  by_cases hfe : e ≤ f
  · by_contra hne
    have hgap := double_grid_gap m n e f hfe hne
    have htri : |(n:ℚ) * (2:ℚ) ^ f - (m:ℚ) * (2:ℚ) ^ e| ≤
        |(n:ℚ) * (2:ℚ) ^ f - x| + |x - (m:ℚ) * (2:ℚ) ^ e| := abs_sub_le _ x _
    have hcomm : |(n:ℚ) * (2:ℚ) ^ f - x| = |x - (n:ℚ) * (2:ℚ) ^ f| := abs_sub_comm _ _
    have h2e := two_zpow_succ e
    linarith
  · exfalso
    push_neg at hfe
    have hxz := double_below_binade n e f hn hfe x hx
    have habs : x - (n : ℚ) * (2:ℚ) ^ f ≤ |x - (n : ℚ) * (2:ℚ) ^ f| := le_abs_self _
    linarith

/-- Correct rounding certificate: a grid point m * 2 ^ e within half an
ulp of x, with x in the binade of 2 ^ (e + 52), is nearest among all
doubles. -/
theorem double_nearest_of_halfUlp (m e : ℤ) (x : ℚ)
    (hm : |m| < 2 ^ 53)
    (hx : (2:ℚ) ^ (e + 52) ≤ x)
    (hclose : |x - (m : ℚ) * (2:ℚ) ^ e| ≤ (2:ℚ) ^ (e - 1)) :
    RoundsTo x ((m : ℚ) * (2:ℚ) ^ e) := by
  refine ⟨⟨m, e, hm, rfl⟩, ?_⟩
  intro z hz
  obtain ⟨n, f, hn, rfl⟩ := hz
  by_cases hfe : e ≤ f
  · by_cases heq : (n : ℚ) * (2:ℚ) ^ f = (m : ℚ) * (2:ℚ) ^ e
    · rw [heq]
    · have hgap := double_grid_gap m n e f hfe heq
      have htri : |(n:ℚ) * (2:ℚ) ^ f - (m:ℚ) * (2:ℚ) ^ e| ≤
          |(n:ℚ) * (2:ℚ) ^ f - x| + |x - (m:ℚ) * (2:ℚ) ^ e| := abs_sub_le _ x _
      have hcomm : |(n:ℚ) * (2:ℚ) ^ f - x| = |x - (n:ℚ) * (2:ℚ) ^ f| := abs_sub_comm _ _
      have h2e := two_zpow_succ e
      linarith
  · push_neg at hfe
    have hxz := double_below_binade n e f hn hfe x hx
    have habs : x - (n : ℚ) * (2:ℚ) ^ f ≤ |x - (n : ℚ) * (2:ℚ) ^ f| := le_abs_self _
    linarith

/-- C10: the claim fails on the program.  At the schema-valid request
principal = 100000, annual_rate = 2 ^ (-43) = 1.1368683772161603e-13,
months = 12, binary64 evaluation of monthly = annual_rate / 12 / 100
yields a double strictly below 2 ^ (-53), so 1 + monthly rounds to
exactly 1; the power of the exact float 1.0 is exactly 1.0, so the
denominator factor - 1 is exactly 0 and the division raises
ZeroDivisionError instead of returning a result.  The theorem holds for
every correctly rounded execution: the roundings at this input are
forced. -/
theorem emi_float_underflow (m1 monthly base : ℚ)
    (hrate : emiFloatMonthly ((2:ℚ) ^ (-43 : ℤ)) m1 monthly)
    (hbase : RoundsTo (1 + monthly) base) :
    monthly < (2:ℚ) ^ (-53 : ℤ) ∧ base = 1 ∧ base ^ (12 : ℕ) - 1 = 0 := by
  obtain ⟨h1, h2⟩ := hrate
  have hy1 : m1 = (6004799503160661 : ℚ) * (2:ℚ) ^ (-99 : ℤ) := by
    apply double_unique_near 6004799503160661 (-99) ((2:ℚ) ^ (-43 : ℤ) / 12) m1
    · norm_num
    · rw [abs_lt]
      constructor <;> norm_num
    · exact h1.1
    · exact h1.2 _ ⟨6004799503160661, -99, by norm_num, by push_cast; ring⟩
  rw [hy1] at h2
  have hy2 : monthly = (7686143364045646 : ℚ) * (2:ℚ) ^ (-106 : ℤ) := by
    apply double_unique_near 7686143364045646 (-106)
      ((6004799503160661 : ℚ) * (2:ℚ) ^ (-99 : ℤ) / 100) monthly
    · norm_num
    · rw [abs_lt]
      constructor <;> norm_num
    · exact h2.1
    · exact h2.2 _ ⟨7686143364045646, -106, by norm_num, by push_cast; ring⟩
  have hsmall : monthly < (2:ℚ) ^ (-53 : ℤ) := by
    rw [hy2]
    norm_num
  have hb : base = 1 := by
    have hb0 : base = ((4503599627370496 : ℤ) : ℚ) * (2:ℚ) ^ (-52 : ℤ) := by
      apply double_unique_near 4503599627370496 (-52) (1 + monthly) base
      · rw [hy2]
        norm_num
      · rw [hy2, abs_lt]
        constructor <;> norm_num
      · exact hbase.1
      · exact hbase.2 _ ⟨4503599627370496, -52, by norm_num, rfl⟩
    rw [hb0]
    norm_num
  refine ⟨hsmall, hb, ?_⟩
  rw [hb]
  norm_num

/-- Witness for C10: the concrete correctly rounded execution at the
failing input, produced by the half-ulp certificates and fed to the
theorem. -/
theorem emi_float_underflow_witness :
    emiFloatMonthly ((2:ℚ) ^ (-43 : ℤ))
        ((6004799503160661 : ℚ) * (2:ℚ) ^ (-99 : ℤ))
        ((7686143364045646 : ℚ) * (2:ℚ) ^ (-106 : ℤ)) ∧
    RoundsTo (1 + (7686143364045646 : ℚ) * (2:ℚ) ^ (-106 : ℤ)) 1 ∧
    ((7686143364045646 : ℚ) * (2:ℚ) ^ (-106 : ℤ) < (2:ℚ) ^ (-53 : ℤ) ∧
      (1 : ℚ) = 1 ∧ (1 : ℚ) ^ (12 : ℕ) - 1 = 0) := by
  have h1 : RoundsTo ((2:ℚ) ^ (-43 : ℤ) / 12)
      ((6004799503160661 : ℚ) * (2:ℚ) ^ (-99 : ℤ)) := by
    have := double_nearest_of_halfUlp 6004799503160661 (-99) ((2:ℚ) ^ (-43 : ℤ) / 12)
      (by norm_num) (by norm_num)
      (by rw [abs_le]; constructor <;> norm_num)
    convert this using 2
  have h2 : RoundsTo ((6004799503160661 : ℚ) * (2:ℚ) ^ (-99 : ℤ) / 100)
      ((7686143364045646 : ℚ) * (2:ℚ) ^ (-106 : ℤ)) := by
    have := double_nearest_of_halfUlp 7686143364045646 (-106)
      ((6004799503160661 : ℚ) * (2:ℚ) ^ (-99 : ℤ) / 100)
      (by norm_num) (by norm_num)
      (by rw [abs_le]; constructor <;> norm_num)
    convert this using 2
  have h3 : RoundsTo (1 + (7686143364045646 : ℚ) * (2:ℚ) ^ (-106 : ℤ)) 1 := by
    have := double_nearest_of_halfUlp 4503599627370496 (-52)
      (1 + (7686143364045646 : ℚ) * (2:ℚ) ^ (-106 : ℤ))
      (by norm_num) (by norm_num)
      (by rw [abs_le]; constructor <;> norm_num)
    convert this using 2
    norm_num
  exact ⟨⟨h1, h2⟩, h3, emi_float_underflow _ _ _ ⟨h1, h2⟩ h3⟩

end LoanPlatform
